import Mathlib

/-!
Verification of the Electrum JSON-RPC authentication layer
(`electrum/jsonrpc.py`): the password-protected server's `authenticate`
method, the request interceptor `parse_request` installed by
`AuthenticatedJSONRPCServer`, and the `AccountsJSONRPCServer` user
registry.

Modelling conventions: Python strings are Lean `String`; the per-request
header mapping is a case-insensitive association list; a raised exception
is an `Except.error`; and the observable side effects of one
`authenticate` call (header lookup, scheme parsing, base64 decoding,
constant-time comparisons, `time.sleep`) are recorded, in execution
order, as an explicit trace of `Event`s, so that ordering and
short-circuiting claims are statable.
-/

/-- Python `str.partition(sep)` restricted to a single-character
separator, on character lists: `none` when the separator does not occur,
otherwise the parts before and after its first occurrence. -/
def partitionCore (c : Char) : List Char → Option (List Char × List Char)
  | [] => none
  | x :: xs =>
    if x = c then some ([], xs)
    else
      match partitionCore c xs with
      | none => none
      | some (pre, post) => some (x :: pre, post)

/-- Python `str.partition(sep)` with a single-character separator: splits
at the first occurrence of the separator; when the separator is absent the
result is the whole string followed by two empty strings. -/
def pyPartition (s : String) (c : Char) : String × String × String :=
  match partitionCore c s.toList with
  | none => (s, "", "")
  | some (pre, post) => (String.mk pre, String.mk [c], String.mk post)

/-- The characters Python `str.strip()` removes (ASCII whitespace). -/
def isPySpace (c : Char) : Bool :=
  c == ' ' || c == '\t' || c == '\n' || c == '\r' || c == '\x0b' || c == '\x0c'

/-- Python `str.strip()`: drop leading and trailing whitespace. -/
def pyStrip (s : String) : String :=
  String.mk (((s.toList.dropWhile isPySpace).reverse.dropWhile isPySpace).reverse)

/-- One request's header mapping, as an association list of
(name, value) pairs. -/
abbrev Headers := List (String × String)

/-- Lower-case a header name for case-insensitive lookup. -/
def lowerName (s : String) : String :=
  String.mk (s.toList.map Char.toLower)

/-- Python `headers.get(name, None)` on an `email.message`-style mapping:
case-insensitive lookup of the first matching header. -/
def Headers.get (hs : Headers) (name : String) : Option String :=
  match hs with
  | [] => none
  | (k, v) :: rest => if lowerName k = lowerName name then some v else Headers.get rest name

/-- Index of a character in the standard base64 alphabet, `none` for a
character outside the alphabet. -/
def b64index (c : Char) : Option Nat :=
  if 'A' ≤ c ∧ c ≤ 'Z' then some (c.toNat - 65)
  else if 'a' ≤ c ∧ c ≤ 'z' then some (c.toNat - 97 + 26)
  else if '0' ≤ c ∧ c ≤ '9' then some (c.toNat - 48 + 52)
  else if c = '+' then some 62
  else if c = '/' then some 63
  else none

/-- State-machine core of `binascii.a2b_base64` in its default non-strict
mode, as CPython implements it: `quadPos` counts the data characters of
the current four-character group, `leftchar` holds their leftover bits,
and `pads` counts the padding characters seen since the last data
character. A character outside the alphabet is skipped. A `=` is skipped
while fewer than two data characters are pending (without touching
`pads`); otherwise it increments `pads`, and once `quadPos + pads ≥ 4`
the pad sequence is complete: decoding stops successfully and all
remaining input is ignored. A data character emits a byte at group
positions 1, 2 and 3 and resets `pads`. Input that runs out with a
dangling group raises `binascii.Error`: one leftover data character is
the impossible 1-mod-4 case, two or three without their pad sequence are
`Incorrect padding` (error texts abbreviated here). -/
def a2b_base64 (quadPos leftchar pads : Nat) :
    List Char → Except String (List Nat)
  | [] =>
    if quadPos = 1 then Except.error "Invalid number of data characters"
    else if quadPos = 0 then Except.ok []
    else Except.error "Incorrect padding"
  | c :: rest =>
    if c = '=' then
      if 2 ≤ quadPos then
        if 4 ≤ quadPos + (pads + 1) then Except.ok []
        else a2b_base64 quadPos leftchar (pads + 1) rest
      else a2b_base64 quadPos leftchar pads rest
    else
      match b64index c with
      | none => a2b_base64 quadPos leftchar pads rest
      | some v =>
        match quadPos with
        | 0 => a2b_base64 1 v 0 rest
        | 1 =>
          match a2b_base64 2 (v % 16) 0 rest with
          | Except.error e => Except.error e
          | Except.ok tail => Except.ok ((leftchar * 4 + v / 16) :: tail)
        | 2 =>
          match a2b_base64 3 (v % 4) 0 rest with
          | Except.error e => Except.error e
          | Except.ok tail => Except.ok ((leftchar * 16 + v / 4) :: tail)
        | _ =>
          match a2b_base64 0 0 0 rest with
          | Except.error e => Except.error e
          | Except.ok tail => Except.ok ((leftchar * 64 + v) :: tail)

/-- Model of `base64.b64decode` (standard library collaborator) in its
default non-strict mode, applied to the utf8 bytes of the remainder
(`util.to_bytes` at line 102): the CPython `a2b_base64` state machine is
run over the characters. A non-ASCII character encodes to utf8 bytes that
all lie outside the base64 alphabet, which the state machine skips
exactly as it skips the character itself, so running over characters
coincides with running over the utf8 bytes. -/
def b64decode (s : String) : Except String (List Nat) :=
  a2b_base64 0 0 0 s.toList

/-- Modelled from the spec: `util.to_string(…, 'utf8')` composed after the
byte-level decode (`electrum.util` is not part of this snapshot). The spec
treats the decoded payload directly as the credentials text, so each
payload byte becomes the character with that code point. -/
def bytesToText (bs : List Nat) : String :=
  String.mk (bs.map Char.ofNat)

/-- Modelled from the spec: `util.constant_time_compare` (`electrum.util`
is not part of this snapshot) — the Constant-Time Comparator decides exact
string equality; each invocation made by `authenticate` is additionally
recorded as an `Event.ctCompare` entry in the trace. -/
def constant_time_compare (a b : String) : Bool := a == b

/-- Whether `needle` is a prefix of `hay` (character lists). -/
def isSubAt : List Char → List Char → Bool
  | [], _ => true
  | _ :: _, [] => false
  | a :: as, b :: bs => a == b && isSubAt as bs

/-- Whether `needle` occurs contiguously anywhere inside `hay`. -/
def containsSub (needle : List Char) : List Char → Bool
  | [] => isSubAt needle []
  | c :: rest => isSubAt needle (c :: rest) || containsSub needle rest

/-- The exceptions of `jsonrpc.py` that `authenticate` can raise, plus a
generic constructor `other` for every exception that is not one of the
three credential-rejection classes (`Exception`, `binascii.Error`, …);
`other` carries the text that `repr(e)` renders for the exception. -/
inductive RPCError where
  | credentialsInvalid
  | credentialsMissing
  | unsupportedType
  | other (msg : String)
deriving DecidableEq

/-- An observable step of one `authenticate` call, in execution order:
reading a header, splitting the header value into scheme and remainder,
base64-decoding the remainder, one call to the constant-time comparator,
and `time.sleep` of the given number of milliseconds. -/
inductive Event where
  | getHeader (name : String)
  | schemeParse (value : String)
  | b64dec (payload : String)
  | ctCompare (given expected : String)
  | sleepMs (ms : Nat)
deriving DecidableEq

/-- The construction-time configuration of `PasswordProtectedJSONRPCServer`:
the expected RPC username and password. -/
structure PasswordServer where
  rpc_user : String
  rpc_password : String
deriving DecidableEq

/-- `PasswordProtectedJSONRPCServer.authenticate` (jsonrpc.py lines
89-108), with its side effects made explicit: the result is the raised
exception (or success) paired with the trace of events the call performs,
in order. Python's `and` on line 105-106 short-circuits, so the password
comparison happens only when the username comparison succeeded; on a
failed comparison the call sleeps 50 ms and then raises. The error text
for a base64 decode failure stands for `repr` of the `binascii.Error`
(rendered here without quote characters). -/
def PasswordServer.authenticate (s : PasswordServer) (headers : Headers) :
    Except RPCError Unit × List Event :=
  if s.rpc_password = "" then
    (Except.ok (), [])
  else
    match Headers.get headers "Authorization" with
    | none => (Except.error RPCError.credentialsMissing, [Event.getHeader "Authorization"])
    | some auth_string =>
      let basic := (pyPartition auth_string ' ').1
      let encoded := (pyPartition auth_string ' ').2.2
      let t1 := [Event.getHeader "Authorization", Event.schemeParse auth_string]
      if basic ≠ "Basic" then
        (Except.error RPCError.unsupportedType, t1)
      else
        match b64decode encoded with
        | Except.error msg =>
          (Except.error (RPCError.other ("binascii.Error(" ++ msg ++ ")")),
           t1 ++ [Event.b64dec encoded])
        | Except.ok bs =>
          let credentials := bytesToText bs
          let username := (pyPartition credentials ':').1
          let password := (pyPartition credentials ':').2.2
          let t2 := t1 ++ [Event.b64dec encoded]
          if constant_time_compare username s.rpc_user then
            if constant_time_compare password s.rpc_password then
              (Except.ok (),
               t2 ++ [Event.ctCompare username s.rpc_user,
                      Event.ctCompare password s.rpc_password])
            else
              (Except.error RPCError.credentialsInvalid,
               t2 ++ [Event.ctCompare username s.rpc_user,
                      Event.ctCompare password s.rpc_password,
                      Event.sleepMs 50])
          else
            (Except.error RPCError.credentialsInvalid,
             t2 ++ [Event.ctCompare username s.rpc_user,
                    Event.sleepMs 50])

/-- The text Python `repr(e)` produces for each modelled exception: the
default `BaseException.__repr__`, which is the class name applied to the
(empty) argument list — it does not consult the `__str__` overrides. -/
def reprOf : RPCError → String
  | RPCError.credentialsInvalid => "RPCAuthCredentialsInvalid()"
  | RPCError.credentialsMissing => "RPCAuthCredentialsMissing()"
  | RPCError.unsupportedType => "RPCAuthUnsupportedType()"
  | RPCError.other msg => msg

/-- The `__str__` description each rejection class defines (jsonrpc.py
lines 36-48). -/
def strOf : RPCError → String
  | RPCError.credentialsInvalid => "Authentication failed (bad credentials)"
  | RPCError.credentialsMissing => "Authentication failed (missing credentials)"
  | RPCError.unsupportedType => "Authentication failed (only basic auth is supported)"
  | RPCError.other msg => msg

/-- What one `parse_request` call did: the boolean it returned, the error
response it sent (status code together with the message that
`send_error` embeds in the response body), if any, and whether it logged
through `self.logger.exception` (the 500 path). -/
structure HandlerResult where
  returned : Bool
  response : Option (Nat × String)
  logged : Bool
deriving DecidableEq

/-- `VerifyingRequestHandler.parse_request` (jsonrpc.py lines 58-74),
parameterised by the outcome of the superclass `parse_request` (`baseOk`),
the request method (`command`), and the server's `authenticate` method.
OPTIONS requests (after `str.strip`) return `True` without consulting
`authenticate`; the three credential-rejection exceptions become a 401
with `repr(e)` as the message; any other exception is logged and becomes
a 500 with `repr(e)` as the message. -/
def parse_request (baseOk : Bool) (command : String)
    (auth : Headers → Except RPCError Unit × List Event)
    (headers : Headers) : HandlerResult :=
  if baseOk then
    if pyStrip command = "OPTIONS" then
      { returned := true, response := none, logged := false }
    else
      match (auth headers).1 with
      | Except.ok _ => { returned := true, response := none, logged := false }
      | Except.error e =>
        match e with
        | RPCError.other _ =>
          { returned := false, response := some (500, reprOf e), logged := true }
        | _ =>
          { returned := false, response := some (401, reprOf e), logged := false }
  else
    { returned := false, response := none, logged := false }

/-- `AuthenticatedJSONRPCServer.authenticate` (jsonrpc.py lines 78-79):
the abstract base implementation unconditionally raises the generic
`Exception('undefined')` (its `repr` is rendered here without quote
characters); it performs no header access. -/
def AuthenticatedJSONRPCServer.authenticate (_headers : Headers) :
    Except RPCError Unit × List Event :=
  (Except.error (RPCError.other "Exception(undefined)"), [])

/-- The state of `AccountsJSONRPCServer`: the `self.users` dict, modelled
as an insertion-ordered association list from assigned id to identity. -/
structure AccountsJSONRPCServer where
  users : List (Nat × String)
deriving DecidableEq

/-- `AccountsJSONRPCServer.authenticate` (jsonrpc.py lines 119-121):
the open/registry policy accepts every request (signature verification is
a pending todo in the source). -/
def AccountsJSONRPCServer.authenticate (_s : AccountsJSONRPCServer)
    (_headers : Headers) : Except RPCError Unit × List Event :=
  (Except.ok (), [])

/-- `AccountsJSONRPCServer.add_user` (jsonrpc.py lines 123-126):
`user_id = len(self.users); self.users[user_id] = pubkey; return user_id`. -/
def AccountsJSONRPCServer.add_user (s : AccountsJSONRPCServer)
    (pubkey : String) : Nat × AccountsJSONRPCServer :=
  let user_id := s.users.length
  (user_id, ⟨s.users ++ [(user_id, pubkey)]⟩)

/-- Reading `self.users[user_id]` back from the registry. -/
def AccountsJSONRPCServer.getUser (s : AccountsJSONRPCServer)
    (user_id : Nat) : Option String :=
  List.lookup user_id s.users

/-- Run a sequence of `add_user` calls from a given state, collecting the
returned ids in order. -/
def addUsers (s : AccountsJSONRPCServer) :
    List String → List Nat × AccountsJSONRPCServer
  | [] => ([], s)
  | pk :: pks =>
    let r := AccountsJSONRPCServer.add_user s pk
    let rest := addUsers r.2 pks
    (r.1 :: rest.1, rest.2)

/-- Helper: once the password is non-empty, the Authorization header is
present, its scheme token is `Basic` and its remainder decodes, the whole
`authenticate` call is the comparison cascade on the partitioned
credentials. -/
theorem authenticate_extract_eq (s : PasswordServer) (headers : Headers)
    (a : String) (bs : List Nat)
    (hp : ¬ s.rpc_password = "")
    (ha : Headers.get headers "Authorization" = some a)
    (hb : (pyPartition a ' ').1 = "Basic")
    (hd : b64decode ((pyPartition a ' ').2.2) = Except.ok bs) :
    PasswordServer.authenticate s headers =
      (let username := (pyPartition (bytesToText bs) ':').1
       let password := (pyPartition (bytesToText bs) ':').2.2
       let t2 := [Event.getHeader "Authorization", Event.schemeParse a,
                  Event.b64dec ((pyPartition a ' ').2.2)]
       if constant_time_compare username s.rpc_user then
         if constant_time_compare password s.rpc_password then
           (Except.ok (), t2 ++ [Event.ctCompare username s.rpc_user,
                                 Event.ctCompare password s.rpc_password])
         else
           (Except.error RPCError.credentialsInvalid,
            t2 ++ [Event.ctCompare username s.rpc_user,
                   Event.ctCompare password s.rpc_password, Event.sleepMs 50])
       else
         (Except.error RPCError.credentialsInvalid,
          t2 ++ [Event.ctCompare username s.rpc_user, Event.sleepMs 50])) := by
  simp only [PasswordServer.authenticate, if_neg hp, ha, hb, hd]
  simp

example : pyPartition "Basic abc def" ' ' = ("Basic", " ", "abc def") := by decide
example : pyPartition "alice:sec:ret" ':' = ("alice", ":", "sec:ret") := by decide
example : pyPartition "nocolon" ':' = ("nocolon", "", "") := by decide
example : pyStrip "  OPTIONS \t" = "OPTIONS" := by decide
example : Headers.get [("authorization", "x")] "Authorization" = some "x" := by decide
example : b64decode "YWxpY2U6c2VjcmV0" = Except.ok [97, 108, 105, 99, 101, 58, 115, 101, 99, 114, 101, 116] := rfl
example : bytesToText [97, 108, 105, 99, 101] = "alice" := by decide
example : b64decode "YWxpY2U6d3Jvbmc=" = Except.ok ("alice:wrong".toList.map Char.toNat) := rfl
example : (b64decode "A").isOk = false := by decide
example : (b64decode "YW").isOk = false := by decide
example : b64decode "YW==" = Except.ok [97] := rfl
example : b64decode "" = Except.ok [] := rfl
example : b64decode "????" = Except.ok [] := rfl
example : b64decode "YW==YWJj" = Except.ok [97] := rfl
example : b64decode "YW=AB" = Except.ok [97, 96, 1] := rfl
example : b64decode "=YWJj" = Except.ok [97, 98, 99] := rfl
example : b64decode "YWJjZA==XXXX" = Except.ok [97, 98, 99, 100] := rfl

/-- C1: for the static-credential policy, whenever the configured expected
password is the empty string, `authenticate` succeeds on every header
mapping and performs no observable step at all — its event trace is empty,
so no header lookup, scheme parsing or base64 decoding is attempted. -/
theorem c1_disabled_auth_allows_all (s : PasswordServer) (headers : Headers)
    (h : s.rpc_password = "") :
    PasswordServer.authenticate s headers = (Except.ok (), []) := by
  simp [PasswordServer.authenticate, h]

/-- C1 witness: a configuration with empty password accepts a request
whose Authorization header is malformed garbage, with an empty trace. -/
theorem c1_disabled_auth_allows_all_witness :
    PasswordServer.authenticate ⟨"alice", ""⟩
        [("Authorization", "garbage !! not base64")] = (Except.ok (), []) :=
  c1_disabled_auth_allows_all ⟨"alice", ""⟩
    [("Authorization", "garbage !! not base64")] rfl

/-- C5: whenever `authenticate` rejects with `RPCAuthCredentialsInvalid`,
the last event before the rejection is returned is the 50 ms sleep; and on
a successful (allowed) run the trace contains no 50 ms sleep at all. -/
theorem c5_sleep_before_invalid (s : PasswordServer) (headers : Headers) :
    ((PasswordServer.authenticate s headers).1
        = Except.error RPCError.credentialsInvalid →
      (PasswordServer.authenticate s headers).2.getLast?
        = some (Event.sleepMs 50)) ∧
    ((PasswordServer.authenticate s headers).1 = Except.ok () →
      Event.sleepMs 50 ∉ (PasswordServer.authenticate s headers).2) := by
  by_cases hp : s.rpc_password = ""
  · simp [PasswordServer.authenticate, hp]
  · rcases hg : Headers.get headers "Authorization" with _ | a
    · simp [PasswordServer.authenticate, hp, hg]
    · by_cases hb : (pyPartition a ' ').1 = "Basic"
      · rcases hd : b64decode ((pyPartition a ' ').2.2) with msg | bs
        · simp [PasswordServer.authenticate, hp, hg, hb, hd]
        · rw [authenticate_extract_eq s headers a bs hp hg hb hd]
          by_cases hcu : constant_time_compare
              ((pyPartition (bytesToText bs) ':').1) s.rpc_user = true
          · by_cases hcp : constant_time_compare
                ((pyPartition (bytesToText bs) ':').2.2) s.rpc_password = true
            · simp [hcu, hcp]
            · simp [hcu, hcp]
          · simp [hcu]
      · simp [PasswordServer.authenticate, hp, hg, hb]

/-- C5 witness: with expected credentials alice/secret, the base64 of
`alice:wrong` is rejected as invalid credentials and its trace ends in a
50 ms sleep. -/
theorem c5_sleep_before_invalid_witness :
    (PasswordServer.authenticate ⟨"alice", "secret"⟩
        [("Authorization", "Basic YWxpY2U6d3Jvbmc=")]).2.getLast?
      = some (Event.sleepMs 50) :=
  (c5_sleep_before_invalid ⟨"alice", "secret"⟩
      [("Authorization", "Basic YWxpY2U6d3Jvbmc=")]).1 rfl

/-- C7: with a non-empty expected password, an absent Authorization header
is rejected as missing credentials, and a present header whose first
space-separated token is not exactly `Basic` is rejected as an
unsupported scheme. -/
theorem c7_missing_and_unsupported (s : PasswordServer) (headers : Headers)
    (hp : ¬ s.rpc_password = "") :
    (Headers.get headers "Authorization" = none →
      (PasswordServer.authenticate s headers).1
        = Except.error RPCError.credentialsMissing) ∧
    (∀ a, Headers.get headers "Authorization" = some a →
      ¬ (pyPartition a ' ').1 = "Basic" →
      (PasswordServer.authenticate s headers).1
        = Except.error RPCError.unsupportedType) := by
  constructor
  · intro hnone
    simp [PasswordServer.authenticate, if_neg hp, hnone]
  · intro a ha hb
    simp [PasswordServer.authenticate, if_neg hp, ha, hb]

/-- C7 witness: against alice/secret, a request with no headers is
rejected as missing credentials, and `Authorization: Digest xyz` is
rejected as an unsupported scheme. -/
theorem c7_missing_and_unsupported_witness :
    (PasswordServer.authenticate ⟨"alice", "secret"⟩ []).1
        = Except.error RPCError.credentialsMissing ∧
    (PasswordServer.authenticate ⟨"alice", "secret"⟩
        [("Authorization", "Digest xyz")]).1
        = Except.error RPCError.unsupportedType :=
  ⟨(c7_missing_and_unsupported ⟨"alice", "secret"⟩ [] (by decide)).1 rfl,
   (c7_missing_and_unsupported ⟨"alice", "secret"⟩ [("Authorization", "Digest xyz")]
      (by decide)).2 "Digest xyz" rfl (by decide)⟩

/-- C8: an OPTIONS request that passed the superclass parse is let through
by the interceptor without any error response or logging, for every
authenticator policy and every header mapping — in particular the result
does not depend on `auth`, so `authenticate` is never consulted. -/
theorem c8_options_bypass
    (auth : Headers → Except RPCError Unit × List Event) (headers : Headers) :
    parse_request true "OPTIONS" auth headers
      = { returned := true, response := none, logged := false } := rfl

/-- Helper: when the separator does not occur, `partitionCore` finds
nothing. -/
theorem partitionCore_eq_none (c : Char) (l : List Char) (h : c ∉ l) :
    partitionCore c l = none := by
  induction l with
  | nil => rfl
  | cons x xs ih =>
    rw [List.mem_cons] at h
    push_neg at h
    unfold partitionCore
    rw [if_neg (fun hx => h.1 hx.symm), ih h.2]

/-- Helper: Python `partition` on a string not containing the separator
returns the whole string and two empty parts. -/
theorem pyPartition_not_mem (s : String) (c : Char) (h : c ∉ s.toList) :
    pyPartition s c = (s, "", "") := by
  unfold pyPartition
  rw [partitionCore_eq_none c s.toList h]

/-- C2 counterexample: against expected credentials alice/secret, the
header `Basic base64("bob:secret")` is successfully extracted and rejected
as invalid credentials, yet no constant-time comparison of the password
field against the expected password is ever executed — Python's `and`
short-circuits after the failed username comparison, contradicting the
claim that both comparisons run on every successfully extracted input. -/
theorem c2_counterexample :
    (PasswordServer.authenticate ⟨"alice", "secret"⟩
        [("Authorization", "Basic Ym9iOnNlY3JldA==")]).1
      = Except.error RPCError.credentialsInvalid ∧
    Event.ctCompare "secret" "secret" ∉
      (PasswordServer.authenticate ⟨"alice", "secret"⟩
        [("Authorization", "Basic Ym9iOnNlY3JldA==")]).2 := by
  constructor
  · rfl
  · decide

/-- C2 (amended): on every successfully extracted input the username
comparison is executed via the constant-time comparator; the password
comparison is executed via the constant-time comparator whenever the
username comparison succeeds, but when the username comparison fails the
trace is exactly header lookup, scheme parse, base64 decode, the single
username comparison and the 50 ms sleep — the password comparison is
skipped (Python's `and` short-circuits). No raw short-circuiting string
equality is invoked on the extracted credentials: every comparison event
is a `ctCompare`. -/
theorem c2_short_circuit (s : PasswordServer) (headers : Headers)
    (a : String) (bs : List Nat)
    (hp : ¬ s.rpc_password = "")
    (ha : Headers.get headers "Authorization" = some a)
    (hb : (pyPartition a ' ').1 = "Basic")
    (hd : b64decode ((pyPartition a ' ').2.2) = Except.ok bs) :
    (Event.ctCompare ((pyPartition (bytesToText bs) ':').1) s.rpc_user
        ∈ (PasswordServer.authenticate s headers).2) ∧
    (constant_time_compare ((pyPartition (bytesToText bs) ':').1) s.rpc_user
        = true →
      Event.ctCompare ((pyPartition (bytesToText bs) ':').2.2) s.rpc_password
        ∈ (PasswordServer.authenticate s headers).2) ∧
    (constant_time_compare ((pyPartition (bytesToText bs) ':').1) s.rpc_user
        = false →
      (PasswordServer.authenticate s headers).2
        = [Event.getHeader "Authorization", Event.schemeParse a,
           Event.b64dec ((pyPartition a ' ').2.2),
           Event.ctCompare ((pyPartition (bytesToText bs) ':').1) s.rpc_user,
           Event.sleepMs 50]) := by
  rw [authenticate_extract_eq s headers a bs hp ha hb hd]
  by_cases hcu : constant_time_compare
      ((pyPartition (bytesToText bs) ':').1) s.rpc_user = true
  · by_cases hcp : constant_time_compare
        ((pyPartition (bytesToText bs) ':').2.2) s.rpc_password = true
    · simp [hcu, hcp]
    · simp [hcu, hcp]
  · rw [Bool.not_eq_true] at hcu
    simp [hcu]

/-- C2 witness for the amended theorem: with correct credentials both the
username and the password comparison events occur in the trace. -/
theorem c2_short_circuit_witness :
    Event.ctCompare "alice" "alice" ∈
      (PasswordServer.authenticate ⟨"alice", "secret"⟩
        [("Authorization", "Basic YWxpY2U6c2VjcmV0")]).2 ∧
    Event.ctCompare "secret" "secret" ∈
      (PasswordServer.authenticate ⟨"alice", "secret"⟩
        [("Authorization", "Basic YWxpY2U6c2VjcmV0")]).2 := by
  have h := c2_short_circuit ⟨"alice", "secret"⟩
      [("Authorization", "Basic YWxpY2U6c2VjcmV0")]
      "Basic YWxpY2U6c2VjcmV0"
      [97, 108, 105, 99, 101, 58, 115, 101, 99, 114, 101, 116]
      (by decide) rfl (by decide) rfl
  exact ⟨h.1, h.2.1 (by decide)⟩

/-- C3: with a non-empty expected password, on every header whose value is
`Basic` followed by a space and a remainder that base64-decodes, the
decoded payload is split at its first `:` (when no `:` is present the
username is the whole payload and the password is empty, and extraction
still succeeds); matching both expected fields yields success, any
mismatch yields the invalid-credentials rejection. -/
theorem c3_basic_outcome (s : PasswordServer) (headers : Headers)
    (a : String) (bs : List Nat)
    (hp : ¬ s.rpc_password = "")
    (ha : Headers.get headers "Authorization" = some a)
    (hb : (pyPartition a ' ').1 = "Basic")
    (hd : b64decode ((pyPartition a ' ').2.2) = Except.ok bs) :
    ((':') ∉ (bytesToText bs).toList →
      (pyPartition (bytesToText bs) ':').1 = bytesToText bs ∧
      (pyPartition (bytesToText bs) ':').2.2 = "") ∧
    ((pyPartition (bytesToText bs) ':').1 = s.rpc_user ∧
        (pyPartition (bytesToText bs) ':').2.2 = s.rpc_password →
      (PasswordServer.authenticate s headers).1 = Except.ok ()) ∧
    (¬ ((pyPartition (bytesToText bs) ':').1 = s.rpc_user ∧
        (pyPartition (bytesToText bs) ':').2.2 = s.rpc_password) →
      (PasswordServer.authenticate s headers).1
        = Except.error RPCError.credentialsInvalid) := by
  refine ⟨?_, ?_, ?_⟩
  · intro hc
    rw [pyPartition_not_mem (bytesToText bs) ':' hc]
    exact ⟨rfl, rfl⟩
  · intro hmatch
    rw [authenticate_extract_eq s headers a bs hp ha hb hd]
    simp [constant_time_compare, hmatch.1, hmatch.2]
  · intro hmismatch
    rw [authenticate_extract_eq s headers a bs hp ha hb hd]
    by_cases hcu : (pyPartition (bytesToText bs) ':').1 = s.rpc_user
    · have hcp : ¬ (pyPartition (bytesToText bs) ':').2.2 = s.rpc_password :=
        fun hpw => hmismatch ⟨hcu, hpw⟩
      simp [constant_time_compare, hcu, hcp]
    · simp [constant_time_compare, hcu]

/-- C3 witness: against alice/secret, `base64("alice:secret")` is allowed
and `base64("alice:wrong")` is rejected as invalid credentials. -/
theorem c3_basic_outcome_witness :
    (PasswordServer.authenticate ⟨"alice", "secret"⟩
        [("Authorization", "Basic YWxpY2U6c2VjcmV0")]).1 = Except.ok () ∧
    (PasswordServer.authenticate ⟨"alice", "secret"⟩
        [("Authorization", "Basic YWxpY2U6d3Jvbmc=")]).1
      = Except.error RPCError.credentialsInvalid := by
  constructor
  · exact (c3_basic_outcome ⟨"alice", "secret"⟩
      [("Authorization", "Basic YWxpY2U6c2VjcmV0")]
      "Basic YWxpY2U6c2VjcmV0"
      [97, 108, 105, 99, 101, 58, 115, 101, 99, 114, 101, 116]
      (by decide) rfl (by decide) rfl).2.1 ⟨by decide, by decide⟩
  · exact (c3_basic_outcome ⟨"alice", "secret"⟩
      [("Authorization", "Basic YWxpY2U6d3Jvbmc=")]
      "Basic YWxpY2U6d3Jvbmc="
      [97, 108, 105, 99, 101, 58, 119, 114, 111, 110, 103]
      (by decide) rfl (by decide) rfl).2.2 (by decide)

/-- C4 counterexample: a request with no Authorization header against
alice/secret is answered 401, but the message embedded in the response
body is `repr(e)` — the class name `RPCAuthCredentialsMissing()` — which
does not contain the rejection reason's `__str__` description
(`Authentication failed (missing credentials)`); `send_error(401,
repr(e))` never consults the `__str__` overrides, contradicting the claim
that the body carries a reason string derived from the description. -/
theorem c4_counterexample :
    (parse_request true "POST"
        (PasswordServer.authenticate ⟨"alice", "secret"⟩) []).response
      = some (401, "RPCAuthCredentialsMissing()") ∧
    containsSub (strOf RPCError.credentialsMissing).toList
      "RPCAuthCredentialsMissing()".toList = false := by
  constructor
  · rfl
  · decide

/-- C4 (amended): for every non-OPTIONS request whose authentication is
rejected with one of the three credential-rejection exceptions, the
interceptor returns `False` (so the request never reaches dispatch) and
sends a 401 whose body carries `repr(e)` — the rejection exception's
class name — with no 500-path logging; the `__str__` descriptions are not
part of the body. -/
theorem c4_reject_401_repr
    (auth : Headers → Except RPCError Unit × List Event)
    (headers : Headers) (command : String) (e : RPCError)
    (hc : ¬ pyStrip command = "OPTIONS")
    (he : (auth headers).1 = Except.error e)
    (hr : e = RPCError.credentialsInvalid ∨ e = RPCError.credentialsMissing ∨
      e = RPCError.unsupportedType) :
    parse_request true command auth headers
      = { returned := false, response := some (401, reprOf e),
          logged := false } := by
  rcases hr with h | h | h <;> subst h <;>
    simp [parse_request, hc, he]

/-- C4 witness for the amended theorem: `Authorization: Digest xyz` on a
POST request yields return value `False`, a 401 carrying
`RPCAuthUnsupportedType()`, and no logging. -/
theorem c4_reject_401_repr_witness :
    parse_request true "POST"
        (PasswordServer.authenticate ⟨"alice", "secret"⟩)
        [("Authorization", "Digest xyz")]
      = { returned := false,
          response := some (401, reprOf RPCError.unsupportedType),
          logged := false } :=
  c4_reject_401_repr (PasswordServer.authenticate ⟨"alice", "secret"⟩)
    [("Authorization", "Digest xyz")] "POST" RPCError.unsupportedType
    (by decide) rfl (Or.inr (Or.inr rfl))

/-- C6: with a non-empty expected password, a header whose scheme token is
`Basic` but whose remainder fails to base64-decode makes `authenticate`
raise the generic `binascii.Error` — the `other` class, none of the three
credential-rejection exceptions — and the interceptor answers any
non-OPTIONS such request with a logged 500, not a 401. -/
theorem c6_decode_failure_fatal (s : PasswordServer) (headers : Headers)
    (a msg command : String)
    (hp : ¬ s.rpc_password = "")
    (ha : Headers.get headers "Authorization" = some a)
    (hb : (pyPartition a ' ').1 = "Basic")
    (hd : b64decode ((pyPartition a ' ').2.2) = Except.error msg)
    (hc : ¬ pyStrip command = "OPTIONS") :
    (PasswordServer.authenticate s headers).1
      = Except.error (RPCError.other ("binascii.Error(" ++ msg ++ ")")) ∧
    parse_request true command (PasswordServer.authenticate s) headers
      = { returned := false,
          response := some (500, "binascii.Error(" ++ msg ++ ")"),
          logged := true } := by
  have h1 : (PasswordServer.authenticate s headers).1
      = Except.error (RPCError.other ("binascii.Error(" ++ msg ++ ")")) := by
    simp [PasswordServer.authenticate, hp, ha, hb, hd]
  refine ⟨h1, ?_⟩
  simp [parse_request, hc, h1, reprOf]

/-- C6 witness: `Authorization: Basic A` (a one-character remainder is
never valid base64) on a POST request against alice/secret produces the
generic error and a logged 500 response. -/
theorem c6_decode_failure_fatal_witness :
    parse_request true "POST"
        (PasswordServer.authenticate ⟨"alice", "secret"⟩)
        [("Authorization", "Basic A")]
      = { returned := false,
          response := some (500,
            "binascii.Error(" ++ "Invalid number of data characters" ++ ")"),
          logged := true } :=
  (c6_decode_failure_fatal ⟨"alice", "secret"⟩ [("Authorization", "Basic A")]
    "Basic A" "Invalid number of data characters" "POST"
    (by decide) rfl (by decide) rfl (by decide)).2

/-- C10: the abstract base `authenticate` raises the generic
`Exception('undefined')` — modelled by the `other` class, none of the
three credential-rejection exceptions — for every header mapping, so on a
server that does not override it, every parsed non-OPTIONS request is
answered with a logged 500 and `parse_request` returns `False`: the
request never reaches RPC dispatch. -/
theorem c10_base_fails_closed (headers : Headers) (command : String)
    (hc : ¬ pyStrip command = "OPTIONS") :
    AuthenticatedJSONRPCServer.authenticate headers
      = (Except.error (RPCError.other "Exception(undefined)"), []) ∧
    parse_request true command AuthenticatedJSONRPCServer.authenticate headers
      = { returned := false,
          response := some (500, "Exception(undefined)"),
          logged := true } := by
  refine ⟨rfl, ?_⟩
  simp [parse_request, hc, AuthenticatedJSONRPCServer.authenticate, reprOf]

/-- C10 witness: a plain POST request with no headers against the base
server is answered with the logged 500 and is not dispatched. -/
theorem c10_base_fails_closed_witness :
    parse_request true "POST" AuthenticatedJSONRPCServer.authenticate []
      = { returned := false,
          response := some (500, "Exception(undefined)"),
          logged := true } :=
  (c10_base_fails_closed [] "POST" (by decide)).2

/-- Helper: running `add_user` over a list of identities returns the
consecutive ids starting at the current registry size, and appends the
correspondingly numbered entries to the registry. -/
theorem addUsers_spec (pubkeys : List String) (s : AccountsJSONRPCServer) :
    (addUsers s pubkeys).1 = List.range' s.users.length pubkeys.length ∧
    (addUsers s pubkeys).2.users
      = s.users ++ (List.range' s.users.length pubkeys.length).zip pubkeys := by
  induction pubkeys generalizing s with
  | nil => simp [addUsers]
  | cons pk pks ih =>
    obtain ⟨ih1, ih2⟩ := ih ⟨s.users ++ [(s.users.length, pk)]⟩
    simp only [List.length_append, List.length_cons, List.length_nil,
      Nat.zero_add] at ih1 ih2
    constructor
    · simp only [addUsers, AccountsJSONRPCServer.add_user, List.length_cons,
        List.range'_succ]
      rw [ih1]
    · simp only [addUsers, AccountsJSONRPCServer.add_user, List.length_cons,
        List.range'_succ, List.zip_cons_cons]
      rw [ih2]
      simp

/-- Helper: looking an id up in a registry fragment numbered consecutively
from `k` retrieves the identity at the corresponding position. -/
theorem lookup_zip_range' (l : List String) (k i : Nat) (h : i < l.length) :
    List.lookup (k + i) ((List.range' k l.length).zip l)
      = some (l.get ⟨i, h⟩) := by
  induction l generalizing k i with
  | nil => exact absurd h (Nat.not_lt_zero i)
  | cons a l ih =>
    cases i with
    | zero =>
      simp [List.range'_succ, List.lookup]
    | succ j =>
      have hne : (k + (j + 1) == k) = false := by
        rw [beq_eq_false_iff_ne]
        omega
      have hj : j < l.length := Nat.lt_of_succ_lt_succ h
      simp only [List.length_cons, List.range'_succ, List.zip_cons_cons,
        List.lookup]
      rw [hne]
      have hk : k + (j + 1) = (k + 1) + j := by omega
      rw [hk]
      exact ih (k + 1) j hj

/-- C9: a sequence of `add_user` calls on a fresh registry returns the ids
0, 1, …, n-1 in insertion order, and afterwards every assigned id maps to
the identity that was registered with it. -/
theorem c9_add_user_ids (pubkeys : List String) :
    (addUsers ⟨[]⟩ pubkeys).1 = List.range pubkeys.length ∧
    ∀ i (h : i < pubkeys.length),
      AccountsJSONRPCServer.getUser (addUsers ⟨[]⟩ pubkeys).2 i
        = some (pubkeys.get ⟨i, h⟩) := by
  obtain ⟨h1, h2⟩ := addUsers_spec pubkeys ⟨[]⟩
  constructor
  · rw [List.range_eq_range']
    simpa using h1
  · intro i hi
    unfold AccountsJSONRPCServer.getUser
    rw [h2]
    simpa using lookup_zip_range' pubkeys 0 i hi

/-- C9 witness: `add_user("pubkey1")` then `add_user("pubkey2")` on a
fresh registry returns 0 then 1, and both identities are retrievable by
their assigned ids. -/
theorem c9_add_user_ids_witness :
    (addUsers ⟨[]⟩ ["pubkey1", "pubkey2"]).1 = [0, 1] ∧
    AccountsJSONRPCServer.getUser (addUsers ⟨[]⟩ ["pubkey1", "pubkey2"]).2 0
      = some "pubkey1" ∧
    AccountsJSONRPCServer.getUser (addUsers ⟨[]⟩ ["pubkey1", "pubkey2"]).2 1
      = some "pubkey2" :=
  ⟨(c9_add_user_ids ["pubkey1", "pubkey2"]).1,
   (c9_add_user_ids ["pubkey1", "pubkey2"]).2 0 (by decide),
   (c9_add_user_ids ["pubkey1", "pubkey2"]).2 1 (by decide)⟩
